import Mathlib

/-!
Verification of the sampling scheduler and analysis pipeline of the
simulated embedded system (`src/simulated_embedded_system/src/main.rs`).

Embedding conventions:
* Time is modelled in whole seconds (`ℕ`).  The run loop sleeps one second
  per iteration, so tick `n` happens at elapsed time `n`; `Instant::now()`
  at tick `n` is `n`, and `start_time` is `0`.
* Finite `f32` values that the program produces (sensor readings,
  thresholds) are modelled as exact rationals (`ℚ`).  The statistics
  utility additionally manipulates the IEEE special values
  `f32::INFINITY`, `f32::NEG_INFINITY` and NaN, so it is modelled over an
  extended type `F32` (rationals plus the three special values, signed
  zeros collapsed); arithmetic on finite values is exact.
* The process-wide random source is modelled as a capability: a
  `VirtualSensor` record of functions from the tick time to the value
  read at that tick (spec §4.2 requires substitutability of the source).
* The file logger is modelled by an oracle `logOk : ℕ → Bool` saying
  whether the log write at a given tick succeeds.  The source calls
  `.expect("Failed to log data")`, which panics the process on failure:
  a tick whose log write fails is modelled by the `Bool` "panicked" flag
  in `simTick` / the abort flag of `run_simulation`.
* Console output (display lines, alert lines, the graph, the statistics
  line) of one combined tick is collected in an `Emission` record; a tick
  that emits nothing yields `none`.
-/

namespace EmbeddedSim

/-- Extended `f32` values: exact rationals plus `f32::INFINITY`,
`f32::NEG_INFINITY` and NaN (signed zeros collapsed). -/
inductive F32 where
  | num (q : ℚ)
  | inf
  | neginf
  | nan
deriving DecidableEq

/-- IEEE addition as used by `values.iter().sum::<f32>()` (exact on finite
values). -/
def F32.add : F32 → F32 → F32
  | .num a, .num b => .num (a + b)
  | .nan, _ => .nan
  | _, .nan => .nan
  | .inf, .neginf => .nan
  | .neginf, .inf => .nan
  | .inf, _ => .inf
  | _, .inf => .inf
  | .neginf, _ => .neginf
  | _, .neginf => .neginf

/-- Rust `f32::min`: returns the smaller operand; if one operand is NaN,
returns the other. -/
def F32.min : F32 → F32 → F32
  | .nan, y => y
  | x, .nan => x
  | .neginf, _ => .neginf
  | _, .neginf => .neginf
  | .inf, y => y
  | x, .inf => x
  | .num a, .num b => .num (Min.min a b)

/-- Rust `f32::max`: returns the larger operand; if one operand is NaN,
returns the other. -/
def F32.max : F32 → F32 → F32
  | .nan, y => y
  | x, .nan => x
  | .inf, _ => .inf
  | _, .inf => .inf
  | .neginf, y => y
  | x, .neginf => x
  | .num a, .num b => .num (Max.max a b)

/-- IEEE division as used by `sum / count` (exact on finite values;
`0.0 / 0.0 = NaN`, `x / 0.0 = ±∞` for `x ≠ 0`). -/
def F32.div : F32 → F32 → F32
  | .nan, _ => .nan
  | _, .nan => .nan
  | .num a, .num b =>
      if b = 0 then (if a = 0 then .nan else if 0 < a then .inf else .neginf)
      else .num (a / b)
  | .inf, .num b => if b < 0 then .neginf else .inf
  | .neginf, .num b => if b < 0 then .inf else .neginf
  | .num _, _ => .num 0
  | .inf, _ => .nan
  | .neginf, _ => .nan

/-- Source `fn calculate_statistics(values: &[f32]) -> (f32, f32, f32)`
(main.rs lines 127–134): sum via `iter().sum()` (fold from `0.0`),
`average = sum / count`, `min = fold(f32::INFINITY, f32::min)`,
`max = fold(f32::NEG_INFINITY, f32::max)`. -/
def calculate_statistics (values : List F32) : F32 × F32 × F32 :=
  let sum := values.foldl F32.add (F32.num 0)
  let count := F32.num (values.length : ℚ)
  let average := F32.div sum count
  let mn := values.foldl F32.min F32.inf
  let mx := values.foldl F32.max F32.neginf
  (average, mn, mx)

/-- One alert message pushed by `check_alerts`; the formatted string
"<kind> exceeded threshold: <value>" is modelled by the kind constructor
applied to the offending value. -/
inductive Alert where
  | temperature (value : ℚ)
  | humidity (value : ℚ)
  | light (value : ℚ)
deriving DecidableEq

/-- Source `struct AlertConfig` (main.rs lines 38–42). -/
structure AlertConfig where
  temperature_threshold : ℚ
  humidity_threshold : ℚ
  light_threshold : ℚ
deriving DecidableEq

/-- Source `fn check_alerts(temperature, humidity, light, config)`
(main.rs lines 137–149): three sequential strict-`>` tests pushing in the
fixed order temperature, humidity, light. -/
def check_alerts (temperature humidity light : ℚ) (config : AlertConfig) :
    List Alert :=
  let alerts : List Alert := []
  let alerts :=
    if temperature > config.temperature_threshold then
      alerts ++ [Alert.temperature temperature]
    else alerts
  let alerts :=
    if humidity > config.humidity_threshold then
      alerts ++ [Alert.humidity humidity]
    else alerts
  let alerts :=
    if light > config.light_threshold then
      alerts ++ [Alert.light light]
    else alerts
  alerts

/-- Source `struct SensorConfig` (main.rs lines 21–25): sampling rates in
whole seconds (`u64` modelled as `ℕ`). -/
structure SensorConfig where
  temperature_sampling_rate : ℕ
  humidity_sampling_rate : ℕ
  light_sampling_rate : ℕ
deriving DecidableEq

/-- Source `struct DisplayConfig` (main.rs lines 33–35). -/
structure DisplayConfig where
  real_time_graph : Bool
deriving DecidableEq

/-- Source `struct Config` (main.rs lines 13–18).  The `storage.log_file_path`
field only feeds the `FileLogger` sink, which is modelled by the
`logOk` oracle, so it is not carried here. -/
structure Config where
  sensors : SensorConfig
  display : DisplayConfig
  alerts : AlertConfig
deriving DecidableEq

/-- The virtual sensor (main.rs lines 53–74) as a capability: each reader
maps the tick time at which it is called to the `f32` it returns.  The
readings are finite floats drawn from bounded ranges, modelled as `ℚ`. -/
structure VirtualSensor where
  read_temperature : ℕ → ℚ
  read_humidity : ℕ → ℚ
  read_light_intensity : ℕ → ℚ

/-- The three per-kind last-fire timestamps of `run_simulation`
(main.rs lines 184–186), all initialized to `Instant::now()` = the run
start time. -/
structure SchedulerState where
  last_temperature_time : ℕ
  last_humidity_time : ℕ
  last_light_time : ℕ
deriving DecidableEq

/-- The sensor-reading phase of one loop iteration (main.rs lines
196–213): each kind fires iff `last_*_time.elapsed() >= rate`; on firing
its reading becomes `Some(..)` and its last-fire time is set to `now`. -/
def tickReads (config : Config) (sensor : VirtualSensor) (now : ℕ)
    (st : SchedulerState) :
    (Option ℚ × Option ℚ × Option ℚ) × SchedulerState :=
  let (temperature, last_temperature_time) :=
    if now - st.last_temperature_time ≥
        config.sensors.temperature_sampling_rate then
      (some (sensor.read_temperature now), now)
    else (none, st.last_temperature_time)
  let (humidity, last_humidity_time) :=
    if now - st.last_humidity_time ≥
        config.sensors.humidity_sampling_rate then
      (some (sensor.read_humidity now), now)
    else (none, st.last_humidity_time)
  let (light, last_light_time) :=
    if now - st.last_light_time ≥
        config.sensors.light_sampling_rate then
      (some (sensor.read_light_intensity now), now)
    else (none, st.last_light_time)
  ((temperature, humidity, light),
   ⟨last_temperature_time, last_humidity_time, last_light_time⟩)

/-- The rolling-window update of the combined branch (main.rs lines
228–231): `temperature_values.push(temp); if len > 10 { remove(0) }`. -/
def push_window (temperature_values : List ℚ) (temp : ℚ) : List ℚ :=
  let temperature_values := temperature_values ++ [temp]
  if temperature_values.length > 10 then temperature_values.tail
  else temperature_values

/-- Everything emitted for one combined tick: the display line's three
values, the rolling-window snapshot used for the graph and statistics,
the optional graph, the alert lines, and the statistics line. -/
structure Emission where
  temperature : ℚ
  humidity : ℚ
  light : ℚ
  window : List ℚ
  graph : Option (List ℚ)
  alerts : List Alert
  stats : F32 × F32 × F32
deriving DecidableEq

/-- The mutable state of one `run_simulation` call: the scheduler's
last-fire times and the `temperature_values` vector. -/
structure SimState where
  sched : SchedulerState
  temperature_values : List ℚ
deriving DecidableEq

/-- One iteration of the run loop body after the duration check
(main.rs lines 195–248): read due sensors, and iff all three readings are
`Some`, display, log (panicking the process when the log write fails —
the `.expect("Failed to log data")` on line 225, modelled by the `Bool`
component), push the temperature into the window, optionally graph,
check alerts, and compute statistics.  Returns (new state, emission if
any, whether the process panicked). -/
def simTick (config : Config) (sensor : VirtualSensor) (logOk : ℕ → Bool)
    (now : ℕ) (s : SimState) : SimState × Option Emission × Bool :=
  let ((temperature, humidity, light), sched) :=
    tickReads config sensor now s.sched
  match temperature, humidity, light with
  | some temp, some hum, some lgt =>
    if logOk now then
      let temperature_values := push_window s.temperature_values temp
      let graph :=
        if config.display.real_time_graph then some temperature_values
        else none
      let alerts := check_alerts temp hum lgt config.alerts
      let stats := calculate_statistics (temperature_values.map F32.num)
      (⟨sched, temperature_values⟩,
       some ⟨temp, hum, lgt, temperature_values, graph, alerts, stats⟩,
       false)
    else
      (⟨sched, s.temperature_values⟩, none, true)
  | _, _, _ => (⟨sched, s.temperature_values⟩, none, false)

/-- The run loop from tick `now` with `fuel = duration - now` iterations
left (main.rs lines 188–249): each iteration runs `simTick` and advances
one second; a log-write panic aborts the process (second component
`true`).  Returns the timestamped emissions and the abort flag. -/
def runFrom (config : Config) (sensor : VirtualSensor) (logOk : ℕ → Bool) :
    ℕ → ℕ → SimState → List (ℕ × Emission) × Bool
  | 0, _, _ => ([], false)
  | fuel + 1, now, s =>
    let (s', em, panicked) := simTick config sensor logOk now s
    if panicked then ([], true)
    else
      match em with
      | some e =>
        let (rest, aborted) := runFrom config sensor logOk fuel (now + 1) s'
        ((now, e) :: rest, aborted)
      | none => runFrom config sensor logOk fuel (now + 1) s'

/-- The state at the start of `run_simulation` (main.rs lines 161,
183–186): empty `temperature_values`, all last-fire times equal to the
start time `0`. -/
def initState : SimState := ⟨⟨0, 0, 0⟩, []⟩

/-- Source `fn run_simulation` after duration selection (main.rs 182–250):
the loop breaks once elapsed time reaches `duration_seconds`, so ticks
happen at elapsed times `0, 1, …, duration_seconds - 1`. -/
def run_simulation (config : Config) (sensor : VirtualSensor)
    (logOk : ℕ → Bool) (duration_seconds : ℕ) :
    List (ℕ × Emission) × Bool :=
  runFrom config sensor logOk duration_seconds 0 initState

/-- The duration selection of `run_simulation` (main.rs lines 173–180):
trimmed input "1" → 15 s, "2" → 30 s, anything else warns and defaults
to 30 s. -/
def select_duration (choice : String) : ℕ :=
  match choice.trim with
  | "1" => 15
  | "2" => 30
  | _ => 30

/-- The scheduler state just before tick `n`, when no panic interrupts
the run: the initial state evolved through the sensor-reading phases of
ticks `0, …, n-1`.  (The last-fire times are updated only by
`tickReads`, independent of the combined-tick gating.) -/
def schedStateAt (config : Config) (sensor : VirtualSensor) :
    ℕ → SchedulerState
  | 0 => initState.sched
  | n + 1 => (tickReads config sensor n (schedStateAt config sensor n)).2

/-- A sample configuration: all sampling rates 1 s, thresholds 30 / 70 /
100, graph on. -/
def sampleConfig : Config := ⟨⟨1, 1, 1⟩, ⟨true⟩, ⟨30, 70, 100⟩⟩

/-- A deterministic sensor capability returning constants. -/
def constSensor : VirtualSensor := ⟨fun _ => 25, fun _ => 50, fun _ => 50⟩

/-- A log sink that succeeds only at tick 0 (and hence fails at the first
combined tick of `sampleConfig`, which is tick 1). -/
def failAfterFirstLog : ℕ → Bool := fun n => n == 0

/-! ## Helper lemmas -/

lemma tickReads_fst_temp (config : Config) (sensor : VirtualSensor)
    (now : ℕ) (st : SchedulerState) :
    (tickReads config sensor now st).1.1 =
      if now - st.last_temperature_time ≥
          config.sensors.temperature_sampling_rate then
        some (sensor.read_temperature now)
      else none := by
  unfold tickReads
  split_ifs <;> rfl

lemma tickReads_fst_hum (config : Config) (sensor : VirtualSensor)
    (now : ℕ) (st : SchedulerState) :
    (tickReads config sensor now st).1.2.1 =
      if now - st.last_humidity_time ≥
          config.sensors.humidity_sampling_rate then
        some (sensor.read_humidity now)
      else none := by
  unfold tickReads
  split_ifs <;> rfl

lemma tickReads_fst_light (config : Config) (sensor : VirtualSensor)
    (now : ℕ) (st : SchedulerState) :
    (tickReads config sensor now st).1.2.2 =
      if now - st.last_light_time ≥
          config.sensors.light_sampling_rate then
        some (sensor.read_light_intensity now)
      else none := by
  unfold tickReads
  split_ifs <;> rfl

lemma tickReads_snd_temp (config : Config) (sensor : VirtualSensor)
    (now : ℕ) (st : SchedulerState) :
    (tickReads config sensor now st).2.last_temperature_time =
      if now - st.last_temperature_time ≥
          config.sensors.temperature_sampling_rate then now
      else st.last_temperature_time := by
  unfold tickReads
  split_ifs <;> rfl

lemma tickReads_snd_hum (config : Config) (sensor : VirtualSensor)
    (now : ℕ) (st : SchedulerState) :
    (tickReads config sensor now st).2.last_humidity_time =
      if now - st.last_humidity_time ≥
          config.sensors.humidity_sampling_rate then now
      else st.last_humidity_time := by
  unfold tickReads
  split_ifs <;> rfl

lemma tickReads_snd_light (config : Config) (sensor : VirtualSensor)
    (now : ℕ) (st : SchedulerState) :
    (tickReads config sensor now st).2.last_light_time =
      if now - st.last_light_time ≥
          config.sensors.light_sampling_rate then now
      else st.last_light_time := by
  unfold tickReads
  split_ifs <;> rfl

lemma push_window_ne_nil (w : List ℚ) (v : ℚ) : push_window w v ≠ [] := by
  have h : 0 < (push_window w v).length := by
    show 0 <
      (if (w ++ [v]).length > 10 then (w ++ [v]).tail else w ++ [v]).length
    split
    · next hc =>
      simp only [List.length_tail, List.length_append, List.length_cons,
        List.length_nil] at hc ⊢
      omega
    · simp
  exact List.length_pos.mp h

/-! ## Theorems for the claims -/

/-- C5: for every tick's three readings, an alert event is produced for a
kind iff its value strictly exceeds its threshold (equality does not
alert), the events are ordered temperature, humidity, light, and at most
three events result.  The evaluation is a pure function of the current
readings, so no deduplication across ticks occurs. -/
theorem C5_alert_evaluation (t h l : ℚ) (cfg : AlertConfig) :
    check_alerts t h l cfg =
      (if t > cfg.temperature_threshold then [Alert.temperature t] else []) ++
      (if h > cfg.humidity_threshold then [Alert.humidity h] else []) ++
      (if l > cfg.light_threshold then [Alert.light l] else []) ∧
    (check_alerts t h l cfg).length ≤ 3 := by
  constructor
  · unfold check_alerts
    split_ifs <;> simp
  · unfold check_alerts
    split_ifs <;> simp

/-- C6 (code behavior at the failing input): `calculate_statistics` on the
empty window silently returns `(NaN, +∞, −∞)` instead of flagging an
error, contradicting the spec's requirement that the empty window be
signalled explicitly. -/
theorem C6_empty_window_silent_nan :
    calculate_statistics [] = (F32.nan, F32.inf, F32.neginf) := by
  decide

/-- C7 (code behavior at the failing input): with all sampling rates 1 s,
tick 1 is the first combined tick; if the log write fails there, the run
aborts immediately (emitting nothing, abort flag set) instead of
reporting the failure and continuing to the end of the 15 s duration.
With a healthy log sink the same run does not abort. -/
theorem C7_log_failure_kills_loop :
    run_simulation sampleConfig constSensor failAfterFirstLog 15 =
      ([], true) ∧
    (run_simulation sampleConfig constSensor (fun _ => true) 15).2 =
      false := by
  constructor
  · rfl
  · rfl

/-- C10: duration selection is total — trimmed input "1" selects 15 s and
every other input (including "2") selects 30 s; no input is rejected. -/
theorem C10_duration_selection (choice : String) :
    select_duration choice =
      if choice.trim = "1" then 15
      else if choice.trim = "2" then 30
      else 30 := by
  unfold select_duration
  split <;> simp_all

lemma simTick_sched (config : Config) (sensor : VirtualSensor)
    (logOk : ℕ → Bool) (now : ℕ) (s : SimState) :
    (simTick config sensor logOk now s).1.sched =
      (tickReads config sensor now s.sched).2 := by
  unfold simTick
  rcases htr : tickReads config sensor now s.sched with ⟨⟨t, u, l⟩, sd⟩
  cases t <;> cases u <;> cases l <;>
    first
      | rfl
      | (split_ifs <;> rfl)

/-- C2: for every sensor kind, a reading is produced at a tick iff
`now - last_fire ≥ interval`; the kind's last-fire time is set to `now`
exactly when it fires (else kept); after firing, the kind is not due
again at any time less than one full interval later; and the updated
last-fire times are kept by `simTick` regardless of whether the tick's
downstream output is emitted or the log write panics. -/
theorem C2_due_iff_fire_reset (config : Config) (sensor : VirtualSensor)
    (now : ℕ) (st : SchedulerState) :
    ((tickReads config sensor now st).1.1.isSome ↔
      now - st.last_temperature_time ≥
        config.sensors.temperature_sampling_rate) ∧
    ((tickReads config sensor now st).2.last_temperature_time =
      if now - st.last_temperature_time ≥
          config.sensors.temperature_sampling_rate then now
      else st.last_temperature_time) ∧
    ((tickReads config sensor now st).1.2.1.isSome ↔
      now - st.last_humidity_time ≥
        config.sensors.humidity_sampling_rate) ∧
    ((tickReads config sensor now st).2.last_humidity_time =
      if now - st.last_humidity_time ≥
          config.sensors.humidity_sampling_rate then now
      else st.last_humidity_time) ∧
    ((tickReads config sensor now st).1.2.2.isSome ↔
      now - st.last_light_time ≥
        config.sensors.light_sampling_rate) ∧
    ((tickReads config sensor now st).2.last_light_time =
      if now - st.last_light_time ≥
          config.sensors.light_sampling_rate then now
      else st.last_light_time) ∧
    (∀ later : ℕ,
      now - st.last_temperature_time ≥
        config.sensors.temperature_sampling_rate →
      later - now < config.sensors.temperature_sampling_rate →
      ¬ later - (tickReads config sensor now st).2.last_temperature_time ≥
          config.sensors.temperature_sampling_rate) ∧
    (∀ later : ℕ,
      now - st.last_humidity_time ≥
        config.sensors.humidity_sampling_rate →
      later - now < config.sensors.humidity_sampling_rate →
      ¬ later - (tickReads config sensor now st).2.last_humidity_time ≥
          config.sensors.humidity_sampling_rate) ∧
    (∀ later : ℕ,
      now - st.last_light_time ≥
        config.sensors.light_sampling_rate →
      later - now < config.sensors.light_sampling_rate →
      ¬ later - (tickReads config sensor now st).2.last_light_time ≥
          config.sensors.light_sampling_rate) ∧
    (∀ (logOk : ℕ → Bool) (w : List ℚ),
      (simTick config sensor logOk now ⟨st, w⟩).1.sched =
        (tickReads config sensor now st).2) := by
  refine ⟨?_, tickReads_snd_temp .., ?_, tickReads_snd_hum .., ?_,
    tickReads_snd_light .., ?_, ?_, ?_, ?_⟩
  · rw [tickReads_fst_temp]
    split_ifs with h <;> simp [h]
  · rw [tickReads_fst_hum]
    split_ifs with h <;> simp [h]
  · rw [tickReads_fst_light]
    split_ifs with h <;> simp [h]
  · intro later hdue hlt
    rw [tickReads_snd_temp, if_pos hdue]
    omega
  · intro later hdue hlt
    rw [tickReads_snd_hum, if_pos hdue]
    omega
  · intro later hdue hlt
    rw [tickReads_snd_light, if_pos hdue]
    omega
  · intro logOk w
    exact simTick_sched config sensor logOk now ⟨st, w⟩

/-- Witness for C2: with all rates 1 s and last-fire times 1, temperature
fires at tick 2 and is then no longer due at the same instant. -/
theorem C2_due_iff_fire_reset_witness :
    ¬ 2 - (tickReads sampleConfig constSensor 2 ⟨1, 1, 1⟩).2.last_temperature_time ≥
        sampleConfig.sensors.temperature_sampling_rate := by
  have h := C2_due_iff_fire_reset sampleConfig constSensor 2 ⟨1, 1, 1⟩
  exact h.2.2.2.2.2.2.1 2 (by decide) (by decide)

/-- C1: a tick of the run loop emits its combined
display/log/window/alert/statistics output iff all three sensor kinds
are due in that same tick (given a healthy log sink); when fewer than
all three are due, nothing is emitted and the rolling window is left
unchanged, so the readings that did fire are dropped. -/
theorem C1_combined_tick_gating (config : Config) (sensor : VirtualSensor)
    (logOk : ℕ → Bool) (now : ℕ) (s : SimState) (hlog : logOk now = true) :
    ((simTick config sensor logOk now s).2.1.isSome ↔
      (now - s.sched.last_temperature_time ≥
          config.sensors.temperature_sampling_rate ∧
       now - s.sched.last_humidity_time ≥
          config.sensors.humidity_sampling_rate ∧
       now - s.sched.last_light_time ≥
          config.sensors.light_sampling_rate)) ∧
    (¬(now - s.sched.last_temperature_time ≥
          config.sensors.temperature_sampling_rate ∧
       now - s.sched.last_humidity_time ≥
          config.sensors.humidity_sampling_rate ∧
       now - s.sched.last_light_time ≥
          config.sensors.light_sampling_rate) →
      (simTick config sensor logOk now s).2.1 = none ∧
      (simTick config sensor logOk now s).1.temperature_values =
        s.temperature_values) := by
  by_cases hT : now - s.sched.last_temperature_time ≥
      config.sensors.temperature_sampling_rate <;>
  by_cases hH : now - s.sched.last_humidity_time ≥
      config.sensors.humidity_sampling_rate <;>
  by_cases hL : now - s.sched.last_light_time ≥
      config.sensors.light_sampling_rate <;>
  simp [simTick, tickReads, hT, hH, hL, hlog]

/-- Witness for C1: at tick 0 of a fresh run with all rates 1 s, no kind
is due, so nothing is emitted and the window stays empty. -/
theorem C1_combined_tick_gating_witness :
    (simTick sampleConfig constSensor (fun _ => true) 0 initState).2.1 =
      none ∧
    (simTick sampleConfig constSensor (fun _ => true) 0
        initState).1.temperature_values =
      initState.temperature_values := by
  have h := C1_combined_tick_gating sampleConfig constSensor
    (fun _ => true) 0 initState rfl
  exact h.2 (by decide)

/-- C9: whenever a tick emits, the statistics of the emission were
computed on the window that had just received the fresh temperature
reading, which is therefore never empty — the empty-window branch of
`calculate_statistics` is unreachable from the run loop. -/
theorem C9_statistics_window_nonempty (config : Config)
    (sensor : VirtualSensor) (logOk : ℕ → Bool) (now : ℕ) (s : SimState)
    (e : Emission)
    (h : (simTick config sensor logOk now s).2.1 = some e) :
    e.window ≠ [] ∧
    e.window = push_window s.temperature_values e.temperature ∧
    e.stats = calculate_statistics (e.window.map F32.num) := by
  unfold simTick at h
  rcases htr : tickReads config sensor now s.sched with ⟨⟨t, u, l⟩, sd⟩
  rw [htr] at h
  cases t with
  | none => simp at h
  | some temp =>
    cases u with
    | none => simp at h
    | some hum =>
      cases l with
      | none => simp at h
      | some lgt =>
        dsimp only at h
        by_cases hok : logOk now
        · rw [if_pos hok] at h
          dsimp only at h
          rw [Option.some.injEq] at h
          subst h
          exact ⟨push_window_ne_nil _ _, rfl, rfl⟩
        · rw [if_neg hok] at h
          simp at h

/-- Witness for C9: the emission of tick 1 of a fresh run with constant
sensor values has the non-empty window `[25]`. -/
theorem C9_statistics_window_nonempty_witness :
    (Emission.mk 25 50 50 [25] (some [25]) []
      (calculate_statistics ([25].map F32.num))).window ≠ [] :=
  (C9_statistics_window_nonempty sampleConfig constSensor (fun _ => true) 1
    initState
    (Emission.mk 25 50 50 [25] (some [25]) []
      (calculate_statistics ([25].map F32.num)))
    rfl).1

lemma foldl_push_window_eq (pushes : List ℚ) :
    pushes.foldl push_window [] = pushes.drop (pushes.length - 10) := by
  induction pushes using List.reverseRecOn with
  | nil => rfl
  | append_singleton ps a ih =>
    rw [List.foldl_append, List.foldl_cons, List.foldl_nil, ih]
    by_cases hn : 10 ≤ ps.length
    · have hlen : (ps.drop (ps.length - 10)).length = 10 := by
        rw [List.length_drop]
        omega
      have hne : ps.drop (ps.length - 10) ≠ [] := by
        intro hcon
        rw [hcon] at hlen
        simp at hlen
      show (if ((ps.drop (ps.length - 10)) ++ [a]).length > 10
          then ((ps.drop (ps.length - 10)) ++ [a]).tail
          else (ps.drop (ps.length - 10)) ++ [a]) =
        (ps ++ [a]).drop ((ps ++ [a]).length - 10)
      rw [if_pos (by simp [hlen])]
      rw [List.tail_append_singleton_of_ne_nil hne, List.tail_drop]
      rw [show (ps ++ [a]).length - 10 = ps.length + 1 - 10 by simp]
      rw [List.drop_append_of_le_length (by omega)]
      have harith : ps.length - 10 + 1 = ps.length + 1 - 10 := by omega
      rw [harith]
    · have h0 : ps.length - 10 = 0 := by omega
      show (if ((ps.drop (ps.length - 10)) ++ [a]).length > 10
          then ((ps.drop (ps.length - 10)) ++ [a]).tail
          else (ps.drop (ps.length - 10)) ++ [a]) =
        (ps ++ [a]).drop ((ps ++ [a]).length - 10)
      rw [h0, List.drop_zero]
      rw [if_neg (by simp; omega)]
      rw [show (ps ++ [a]).length - 10 = 0 by simp; omega, List.drop_zero]

/-- C3: after any sequence of pushes into the temperature history, the
window holds exactly the most recent `min 10 pushes` values in push
order (oldest first) — equivalently, the pushed sequence with all but
the last 10 entries dropped — and its length is `min 10 pushes`.  In
particular on overflow exactly the single oldest element is evicted. -/
theorem C3_rolling_window_invariant (pushes : List ℚ) :
    (pushes.foldl push_window []).length = min 10 pushes.length ∧
    pushes.foldl push_window [] = pushes.drop (pushes.length - 10) := by
  refine ⟨?_, foldl_push_window_eq pushes⟩
  rw [foldl_push_window_eq pushes, List.length_drop]
  omega

lemma F32_div_num_of_ne (a b : ℚ) (hb : b ≠ 0) :
    F32.div (F32.num a) (F32.num b) = F32.num (a / b) := by
  simp only [F32.div]
  rw [if_neg hb]

lemma foldl_F32_add_num (l : List ℚ) (a : ℚ) :
    (l.map F32.num).foldl F32.add (F32.num a) = F32.num (a + l.sum) := by
  induction l generalizing a with
  | nil => simp
  | cons q rest ih =>
    simp only [List.map_cons, List.foldl_cons, List.sum_cons]
    rw [show F32.add (F32.num a) (F32.num q) = F32.num (a + q) from rfl, ih]
    congr 1
    ring

lemma foldl_F32_min_num (l : List ℚ) (a : ℚ) :
    (l.map F32.num).foldl F32.min (F32.num a) =
      F32.num (l.foldl Min.min a) := by
  induction l generalizing a with
  | nil => rfl
  | cons q rest ih =>
    simp only [List.map_cons, List.foldl_cons]
    exact ih (Min.min a q)

lemma foldl_F32_max_num (l : List ℚ) (a : ℚ) :
    (l.map F32.num).foldl F32.max (F32.num a) =
      F32.num (l.foldl Max.max a) := by
  induction l generalizing a with
  | nil => rfl
  | cons q rest ih =>
    simp only [List.map_cons, List.foldl_cons]
    exact ih (Max.max a q)

lemma foldl_min_mem (l : List ℚ) (a : ℚ) : l.foldl Min.min a ∈ a :: l := by
  induction l generalizing a with
  | nil => simp
  | cons q rest ih =>
    simp only [List.foldl_cons]
    rcases List.mem_cons.mp (ih (Min.min a q)) with h1 | h1
    · rcases min_choice a q with h2 | h2 <;> rw [h1, h2] <;> simp
    · exact List.mem_cons_of_mem _ (List.mem_cons_of_mem _ h1)

lemma foldl_min_le (l : List ℚ) (a : ℚ) :
    ∀ x ∈ a :: l, l.foldl Min.min a ≤ x := by
  induction l generalizing a with
  | nil =>
    intro x hx
    simp only [List.mem_singleton] at hx
    simp [hx]
  | cons q rest ih =>
    intro x hx
    simp only [List.foldl_cons]
    rcases List.mem_cons.mp hx with rfl | hx1
    · exact le_trans (ih (Min.min _ _) _ (List.mem_cons_self _ _))
        (min_le_left _ _)
    · rcases List.mem_cons.mp hx1 with rfl | hx2
      · exact le_trans (ih (Min.min _ _) _ (List.mem_cons_self _ _))
          (min_le_right _ _)
      · exact ih (Min.min _ _) x (List.mem_cons_of_mem _ hx2)

lemma foldl_max_mem (l : List ℚ) (a : ℚ) : l.foldl Max.max a ∈ a :: l := by
  induction l generalizing a with
  | nil => simp
  | cons q rest ih =>
    simp only [List.foldl_cons]
    rcases List.mem_cons.mp (ih (Max.max a q)) with h1 | h1
    · rcases max_choice a q with h2 | h2 <;> rw [h1, h2] <;> simp
    · exact List.mem_cons_of_mem _ (List.mem_cons_of_mem _ h1)

lemma foldl_max_ge (l : List ℚ) (a : ℚ) :
    ∀ x ∈ a :: l, x ≤ l.foldl Max.max a := by
  induction l generalizing a with
  | nil =>
    intro x hx
    simp only [List.mem_singleton] at hx
    simp [hx]
  | cons q rest ih =>
    intro x hx
    simp only [List.foldl_cons]
    rcases List.mem_cons.mp hx with rfl | hx1
    · exact le_trans (le_max_left _ _)
        (ih (Max.max _ _) _ (List.mem_cons_self _ _))
    · rcases List.mem_cons.mp hx1 with rfl | hx2
      · exact le_trans (le_max_right _ _)
          (ih (Max.max _ _) _ (List.mem_cons_self _ _))
      · exact ih (Max.max _ _) x (List.mem_cons_of_mem _ hx2)

/-- C4: on every non-empty window, `calculate_statistics` returns the
arithmetic mean, the least element, and the greatest element; in
particular on the window `[20, 25, 30]` it returns
`(25, 20, 30)`. -/
theorem C4_statistics_correct (values : List ℚ) (h : values ≠ []) :
    (calculate_statistics (values.map F32.num)).1 =
      F32.num (values.sum / (values.length : ℚ)) ∧
    (∃ m, (calculate_statistics (values.map F32.num)).2.1 = F32.num m ∧
      m ∈ values ∧ ∀ x ∈ values, m ≤ x) ∧
    (∃ M, (calculate_statistics (values.map F32.num)).2.2 = F32.num M ∧
      M ∈ values ∧ ∀ x ∈ values, x ≤ M) ∧
    calculate_statistics ([20, 25, 30].map F32.num) =
      (F32.num 25, F32.num 20, F32.num 30) := by
  obtain ⟨v, rest, rfl⟩ := List.exists_cons_of_ne_nil h
  refine ⟨?_, ?_, ?_, ?_⟩
  · have hne : (((v :: rest).length : ℕ) : ℚ) ≠ 0 := by
      rw [Nat.cast_ne_zero]
      simp
    calc (calculate_statistics ((v :: rest).map F32.num)).1
        = F32.div (((v :: rest).map F32.num).foldl F32.add (F32.num 0))
            (F32.num ((((v :: rest).map F32.num).length : ℕ) : ℚ)) := rfl
      _ = F32.div (F32.num (0 + (v :: rest).sum))
            (F32.num (((v :: rest).length : ℕ) : ℚ)) := by
          rw [foldl_F32_add_num, List.length_map]
      _ = F32.num ((0 + (v :: rest).sum) / ((v :: rest).length : ℚ)) :=
          F32_div_num_of_ne _ _ hne
      _ = F32.num ((v :: rest).sum / ((v :: rest).length : ℚ)) := by
          rw [zero_add]
  · refine ⟨rest.foldl Min.min v, ?_, foldl_min_mem rest v,
      foldl_min_le rest v⟩
    calc (calculate_statistics ((v :: rest).map F32.num)).2.1
        = (rest.map F32.num).foldl F32.min (F32.num v) := rfl
      _ = F32.num (rest.foldl Min.min v) := foldl_F32_min_num rest v
  · refine ⟨rest.foldl Max.max v, ?_, foldl_max_mem rest v,
      foldl_max_ge rest v⟩
    calc (calculate_statistics ((v :: rest).map F32.num)).2.2
        = (rest.map F32.num).foldl F32.max (F32.num v) := rfl
      _ = F32.num (rest.foldl Max.max v) := foldl_F32_max_num rest v
  · have c1 : (calculate_statistics ([20, 25, 30].map F32.num)).1 =
        F32.num 25 := by
      calc (calculate_statistics ([20, 25, 30].map F32.num)).1
          = F32.div (([20, 25, 30].map F32.num).foldl F32.add (F32.num 0))
              (F32.num ((([20, 25, 30].map F32.num).length : ℕ) : ℚ)) := rfl
        _ = F32.div (F32.num (0 + ([20, 25, 30] : List ℚ).sum))
              (F32.num (((3 : ℕ) : ℚ))) := by
            rw [foldl_F32_add_num]
            rfl
        _ = F32.num ((0 + ([20, 25, 30] : List ℚ).sum) / ((3 : ℕ) : ℚ)) :=
            F32_div_num_of_ne _ _ (by norm_num)
        _ = F32.num 25 := by
            congr 1
            norm_num [List.sum_cons, List.sum_nil]
    have c2 : (calculate_statistics ([20, 25, 30].map F32.num)).2.1 =
        F32.num 20 := by
      have m1 : Min.min (20 : ℚ) 25 = 20 := min_eq_left (by norm_num)
      have m2 : Min.min (20 : ℚ) 30 = 20 := min_eq_left (by norm_num)
      calc (calculate_statistics ([20, 25, 30].map F32.num)).2.1
          = F32.num (Min.min (Min.min (20 : ℚ) 25) 30) := rfl
        _ = F32.num 20 := by rw [m1, m2]
    have c3 : (calculate_statistics ([20, 25, 30].map F32.num)).2.2 =
        F32.num 30 := by
      have m1 : Max.max (20 : ℚ) 25 = 25 := max_eq_right (by norm_num)
      have m2 : Max.max (25 : ℚ) 30 = 30 := max_eq_right (by norm_num)
      calc (calculate_statistics ([20, 25, 30].map F32.num)).2.2
          = F32.num (Max.max (Max.max (20 : ℚ) 25) 30) := rfl
        _ = F32.num 30 := by rw [m1, m2]
    calc calculate_statistics ([20, 25, 30].map F32.num)
        = ((calculate_statistics ([20, 25, 30].map F32.num)).1,
           (calculate_statistics ([20, 25, 30].map F32.num)).2.1,
           (calculate_statistics ([20, 25, 30].map F32.num)).2.2) := rfl
      _ = (F32.num 25, F32.num 20, F32.num 30) := by rw [c1, c2, c3]

/-- Witness for C4: the general theorem instantiated at the spec's test
window `[20, 25, 30]` yields exactly `(25, 20, 30)`. -/
theorem C4_statistics_correct_witness :
    calculate_statistics ([20, 25, 30].map F32.num) =
      (F32.num 25, F32.num 20, F32.num 30) :=
  (C4_statistics_correct [20, 25, 30] (by simp)).2.2.2

lemma schedStateAt_temp_zero (config : Config) (sensor : VirtualSensor) :
    ∀ t, t ≤ config.sensors.temperature_sampling_rate →
      (schedStateAt config sensor t).last_temperature_time = 0 := by
  intro t
  induction t with
  | zero => intro _; rfl
  | succ n ih =>
    intro hle
    show (tickReads config sensor n
      (schedStateAt config sensor n)).2.last_temperature_time = 0
    rw [tickReads_snd_temp, ih (by omega), if_neg (by omega)]

lemma schedStateAt_hum_zero (config : Config) (sensor : VirtualSensor) :
    ∀ t, t ≤ config.sensors.humidity_sampling_rate →
      (schedStateAt config sensor t).last_humidity_time = 0 := by
  intro t
  induction t with
  | zero => intro _; rfl
  | succ n ih =>
    intro hle
    show (tickReads config sensor n
      (schedStateAt config sensor n)).2.last_humidity_time = 0
    rw [tickReads_snd_hum, ih (by omega), if_neg (by omega)]

lemma schedStateAt_light_zero (config : Config) (sensor : VirtualSensor) :
    ∀ t, t ≤ config.sensors.light_sampling_rate →
      (schedStateAt config sensor t).last_light_time = 0 := by
  intro t
  induction t with
  | zero => intro _; rfl
  | succ n ih =>
    intro hle
    show (tickReads config sensor n
      (schedStateAt config sensor n)).2.last_light_time = 0
    rw [tickReads_snd_light, ih (by omega), if_neg (by omega)]

/-- C8: at simulation start every last-fire time equals the start time
`0`, so no kind produces a reading at any tick before its full interval
has elapsed, and each kind first fires exactly at the tick equal to its
configured interval — no burst of readings at `t = 0`. -/
theorem C8_initial_due_state (config : Config) (sensor : VirtualSensor) :
    schedStateAt config sensor 0 = ⟨0, 0, 0⟩ ∧
    (∀ t, t < config.sensors.temperature_sampling_rate →
      (tickReads config sensor t (schedStateAt config sensor t)).1.1 =
        none) ∧
    (∀ t, t < config.sensors.humidity_sampling_rate →
      (tickReads config sensor t (schedStateAt config sensor t)).1.2.1 =
        none) ∧
    (∀ t, t < config.sensors.light_sampling_rate →
      (tickReads config sensor t (schedStateAt config sensor t)).1.2.2 =
        none) ∧
    (tickReads config sensor config.sensors.temperature_sampling_rate
        (schedStateAt config sensor
          config.sensors.temperature_sampling_rate)).1.1 =
      some (sensor.read_temperature
        config.sensors.temperature_sampling_rate) ∧
    (tickReads config sensor config.sensors.humidity_sampling_rate
        (schedStateAt config sensor
          config.sensors.humidity_sampling_rate)).1.2.1 =
      some (sensor.read_humidity
        config.sensors.humidity_sampling_rate) ∧
    (tickReads config sensor config.sensors.light_sampling_rate
        (schedStateAt config sensor
          config.sensors.light_sampling_rate)).1.2.2 =
      some (sensor.read_light_intensity
        config.sensors.light_sampling_rate) := by
  refine ⟨rfl, ?_, ?_, ?_, ?_, ?_, ?_⟩
  · intro t ht
    rw [tickReads_fst_temp,
      schedStateAt_temp_zero config sensor t (by omega),
      if_neg (by omega)]
  · intro t ht
    rw [tickReads_fst_hum,
      schedStateAt_hum_zero config sensor t (by omega),
      if_neg (by omega)]
  · intro t ht
    rw [tickReads_fst_light,
      schedStateAt_light_zero config sensor t (by omega),
      if_neg (by omega)]
  · rw [tickReads_fst_temp,
      schedStateAt_temp_zero config sensor _ le_rfl, if_pos (by omega)]
  · rw [tickReads_fst_hum,
      schedStateAt_hum_zero config sensor _ le_rfl, if_pos (by omega)]
  · rw [tickReads_fst_light,
      schedStateAt_light_zero config sensor _ le_rfl, if_pos (by omega)]

/-- Witness for C8: with all rates 1 s, no temperature reading is
produced at tick 0 of a fresh run. -/
theorem C8_initial_due_state_witness :
    (tickReads sampleConfig constSensor 0
      (schedStateAt sampleConfig constSensor 0)).1.1 = none :=
  (C8_initial_due_state sampleConfig constSensor).2.1 0 (by decide)

end EmbeddedSim
